import Mathlib

/-!
# OTP Session Manager — verification of the challenge store and its operations

Shallow embedding of the OTP (one-time password) subsystem of the CEG Connect
backend (`src/index.js`): the in-memory challenge store `otpStorage`, the
`POST /api/auth/send-otp` handler (spec: `RequestChallenge`), the
`POST /api/auth/verify-otp` handler (spec: `VerifyChallenge`), and the
periodic expired-entry cleanup (spec: the sweep).

Time is modelled as a `Nat` of milliseconds (`Date.now()`); the random draw
of `Math.random() * 900000` is modelled by a `Nat` parameter reduced
`% 900000`; the external identity issuer (Firebase `getUserByEmail` /
`createUser` / `createCustomToken`) is modelled by a `Bool` parameter saying
whether the whole issuing sequence succeeds or throws.
-/

/-- One entry of `otpStorage` (src/index.js lines 112-116):
`{ otp, expiresAt, attempts }`.  The code is kept as the string the
handler stores (`generateOTP()` returns a string); `expiresAt` is a
millisecond timestamp. -/
structure Challenge where
  otp : String
  expiresAt : Nat
  attempts : Nat
  deriving DecidableEq, Repr

/-- The challenge store `otpStorage : Map email → entry`, modelled
extensionally as a function from keys to optional entries. -/
def Store : Type := String → Option Challenge

/-- The store at process start: empty. -/
def emptyStore : Store := fun _ => none

/-- `otpStorage.set(email, c)` — Map.set semantics: the key `email` now maps
to `c`, every other key is untouched. -/
def storeSet (email : String) (c : Challenge) (s : Store) : Store :=
  fun e => if e = email then some c else s e

/-- `otpStorage.delete(email)` — the key `email` now maps to nothing, every
other key is untouched. -/
def storeDelete (email : String) (s : Store) : Store :=
  fun e => if e = email then none else s e

/-- The character class `[^\s@]` of the handler's email regular expression:
any character that is neither whitespace nor `@`. -/
def isEmailChar (c : Char) : Bool := !c.isWhitespace && c ≠ '@'

/-- The validation `emailRegex = /^[^\s@]+@[^\s@]+\.[^\s@]+$/` together with
the preceding `!email` falsiness check (src/index.js lines 100-101): a match
is a nonempty `@`-free local part, a single `@`, and a domain over `[^\s@]`
containing a dot that is neither its first nor its last character. -/
def validEmail (e : String) : Bool :=
  let cs := e.data
  let lp := cs.takeWhile (· ≠ '@')
  match cs.dropWhile (· ≠ '@') with
  | '@' :: dom =>
    !lp.isEmpty && lp.all isEmailChar && !dom.contains '@' && dom.all isEmailChar
      && ((dom.drop 1).dropLast.contains '.')
  | _ => false

/-- `generateOTP` (src/index.js lines 42-44):
`Math.floor(100000 + Math.random() * 900000).toString()`.  The random draw
`Math.random() * 900000 ∈ [0, 900000)` is modelled by `k % 900000`. -/
def generateOTP (k : Nat) : String := Nat.repr (100000 + k % 900000)

/-- The numeric value of the generated code, before stringification. -/
def generateOTPNum (k : Nat) : Nat := 100000 + k % 900000

/-- Result of the `send-otp` handler, as seen by its caller. -/
inductive SendResult where
  /-- 400 "Please use a valid email address" (spec: `InvalidIdentity`). -/
  | invalidIdentity
  /-- 200 `{ success: true, otp, expiresIn }` — the demo response returns
  the issued code and the 300-second window. -/
  | otpSent (otp : String) (expiresIn : Nat)
  deriving DecidableEq, Repr

/-- `POST /api/auth/send-otp` (src/index.js lines 95-126), spec:
`RequestChallenge`.  `k` models the random draw, `now` the value of
`Date.now()` in milliseconds. -/
def sendOtp (email : String) (k : Nat) (now : Nat) (s : Store) :
    SendResult × Store :=
  if !validEmail email then
    (SendResult.invalidIdentity, s)
  else
    let otp := generateOTP k
    let expiresAt := now + 5 * 60 * 1000
    (SendResult.otpSent otp 300,
      storeSet email { otp := otp, expiresAt := expiresAt, attempts := 0 } s)

/-- Result of the `verify-otp` handler, one constructor per distinguishable
response (spec §7's error kinds). -/
inductive VerifyResult where
  /-- 400 "Email and OTP are required" (spec: `MissingInput`). -/
  | missingInput
  /-- 400 "OTP not found or expired" (spec: `NotFoundOrExpired`). -/
  | notFoundOrExpired
  /-- 400 "OTP has expired" (spec: `Expired`). -/
  | expired
  /-- 400 "Too many failed attempts" (spec: `AttemptsExhausted`). -/
  | attemptsExhausted
  /-- 400 "Invalid OTP" (spec: `Mismatch`). -/
  | mismatch
  /-- 200 `{ success: true, token, user: { name: email.split('@')[0] } }`. -/
  | success (name : String)
  /-- 500 "Failed to create authentication token" (spec: `IssuerFailure`). -/
  | issuerFailure
  deriving DecidableEq, Repr

/-- `email.split('@')[0]` — the local part used as the display-name
placeholder in the success response. -/
def localPart (e : String) : String := String.mk (e.data.takeWhile (· ≠ '@'))

/-- `POST /api/auth/verify-otp` (src/index.js lines 174-266), spec:
`VerifyChallenge`.  Checks run in source order: missing input, lookup,
expiry (`new Date() > storedData.expiresAt`), attempt limit
(`storedData.attempts >= 3`), code comparison, then the Firebase issuer
calls; `issuerOk` says whether those calls succeed.  Note that
`otpStorage.delete(email)` on the success path runs only after the issuer
calls return (line 240), so a failing issuer leaves the entry in place. -/
def verifyOtp (email otp : String) (now : Nat) (issuerOk : Bool) (s : Store) :
    VerifyResult × Store :=
  if email = "" ∨ otp = "" then
    (VerifyResult.missingInput, s)
  else
    match s email with
    | none => (VerifyResult.notFoundOrExpired, s)
    | some storedData =>
      if now > storedData.expiresAt then
        (VerifyResult.expired, storeDelete email s)
      else if storedData.attempts ≥ 3 then
        (VerifyResult.attemptsExhausted, storeDelete email s)
      else if storedData.otp ≠ otp then
        (VerifyResult.mismatch,
          storeSet email { storedData with attempts := storedData.attempts + 1 } s)
      else if issuerOk then
        (VerifyResult.success (localPart email), storeDelete email s)
      else
        (VerifyResult.issuerFailure, s)

/-- The periodic cleanup task (src/index.js lines 986-993): for every stored
entry, delete it when `now > data.expiresAt`; modelled pointwise. -/
def cleanupExpired (now : Nat) (s : Store) : Store :=
  fun e =>
    match s e with
    | some data => if now > data.expiresAt then none else some data
    | none => none

/-- The store states reachable from process start by any interleaving of the
three operations, each at an arbitrary time. -/
inductive Reachable : Store → Prop where
  | empty : Reachable emptyStore
  | send (email : String) (k now : Nat) {s : Store} :
      Reachable s → Reachable (sendOtp email k now s).2
  | verify (email otp : String) (now : Nat) (issuerOk : Bool) {s : Store} :
      Reachable s → Reachable (verifyOtp email otp now issuerOk s).2
  | cleanup (now : Nat) {s : Store} :
      Reachable s → Reachable (cleanupExpired now s)

/-! ## Helper lemmas -/

theorem toDigitsCore_length (b : Nat) :
    ∀ (fuel n : Nat) (ds : List Char),
      ds.length ≤ (Nat.toDigitsCore b fuel n ds).length := by
  intro fuel
  induction fuel with
  | zero => intro n ds; simp [Nat.toDigitsCore]
  | succ f ih =>
    intro n ds
    simp only [Nat.toDigitsCore]
    split
    · simp
    · exact le_trans (by simp) (ih _ _)

theorem toDigits_length_pos (b n : Nat) : 1 ≤ (Nat.toDigits b n).length := by
  unfold Nat.toDigits
  rw [Nat.toDigitsCore]
  split
  · simp
  · exact le_trans (by simp) (toDigitsCore_length b n (n / b) _)

theorem repr_ne_empty (n : Nat) : Nat.repr n ≠ "" := by
  intro h
  have h2 : Nat.toDigits 10 n = [] := by
    have h3 := congrArg String.data h
    simpa [Nat.repr, List.asString] using h3
  have h4 := toDigits_length_pos 10 n
  rw [h2] at h4
  simp at h4

theorem generateOTP_ne_empty (k : Nat) : generateOTP k ≠ "" :=
  repr_ne_empty _

theorem validEmail_ne_empty {e : String} (h : validEmail e = true) : e ≠ "" := by
  intro he
  rw [he] at h
  simp [validEmail] at h

/-- Branch lemma: lookup misses. -/
theorem verifyOtp_notFound (email otp : String) (now : Nat) (io : Bool)
    (s : Store) (h1 : email ≠ "") (h2 : otp ≠ "") (h3 : s email = none) :
    verifyOtp email otp now io s = (VerifyResult.notFoundOrExpired, s) := by
  simp only [verifyOtp, h3]
  rw [if_neg (by simp [h1, h2])]

/-- Branch lemma: the entry is past its expiry. -/
theorem verifyOtp_expired (email otp : String) (now : Nat) (io : Bool)
    (s : Store) (c : Challenge) (h1 : email ≠ "") (h2 : otp ≠ "")
    (h3 : s email = some c) (h4 : now > c.expiresAt) :
    verifyOtp email otp now io s = (VerifyResult.expired, storeDelete email s) := by
  simp only [verifyOtp, h3]
  rw [if_neg (by simp [h1, h2]), if_pos h4]

/-- Branch lemma: not expired but the attempt budget is used up. -/
theorem verifyOtp_exhausted (email otp : String) (now : Nat) (io : Bool)
    (s : Store) (c : Challenge) (h1 : email ≠ "") (h2 : otp ≠ "")
    (h3 : s email = some c) (h4 : ¬ now > c.expiresAt) (h5 : c.attempts ≥ 3) :
    verifyOtp email otp now io s = (VerifyResult.attemptsExhausted, storeDelete email s) := by
  simp only [verifyOtp, h3]
  rw [if_neg (by simp [h1, h2]), if_neg h4, if_pos h5]

/-- Branch lemma: live entry, wrong code. -/
theorem verifyOtp_mismatch (email otp : String) (now : Nat) (io : Bool)
    (s : Store) (c : Challenge) (h1 : email ≠ "") (h2 : otp ≠ "")
    (h3 : s email = some c) (h4 : ¬ now > c.expiresAt) (h5 : c.attempts < 3)
    (h6 : c.otp ≠ otp) :
    verifyOtp email otp now io s =
      (VerifyResult.mismatch,
        storeSet email { c with attempts := c.attempts + 1 } s) := by
  simp only [verifyOtp, h3]
  rw [if_neg (by simp [h1, h2]), if_neg h4, if_neg (by omega), if_pos h6]

/-- Branch lemma: live entry, matching code, issuer succeeds. -/
theorem verifyOtp_success (email otp : String) (now : Nat)
    (s : Store) (c : Challenge) (h1 : email ≠ "") (h2 : otp ≠ "")
    (h3 : s email = some c) (h4 : ¬ now > c.expiresAt) (h5 : c.attempts < 3)
    (h6 : c.otp = otp) :
    verifyOtp email otp now true s =
      (VerifyResult.success (localPart email), storeDelete email s) := by
  simp only [verifyOtp, h3]
  rw [if_neg (by simp [h1, h2]), if_neg h4, if_neg (by omega),
    if_neg (by simp [h6]), if_pos trivial]

/-- Branch lemma: live entry, matching code, issuer throws. -/
theorem verifyOtp_issuerFail (email otp : String) (now : Nat)
    (s : Store) (c : Challenge) (h1 : email ≠ "") (h2 : otp ≠ "")
    (h3 : s email = some c) (h4 : ¬ now > c.expiresAt) (h5 : c.attempts < 3)
    (h6 : c.otp = otp) :
    verifyOtp email otp now false s = (VerifyResult.issuerFailure, s) := by
  simp only [verifyOtp, h3]
  rw [if_neg (by simp [h1, h2]), if_neg h4, if_neg (by omega),
    if_neg (by simp [h6]), if_neg (by simp)]

theorem storeSet_self (email : String) (c : Challenge) (s : Store) :
    storeSet email c s email = some c := by
  simp [storeSet]

theorem storeSet_other (email e : String) (c : Challenge) (s : Store)
    (h : e ≠ email) : storeSet email c s e = s e := by
  simp [storeSet, h]

theorem storeDelete_self (email : String) (s : Store) :
    storeDelete email s email = none := by
  simp [storeDelete]

theorem storeDelete_other (email e : String) (s : Store)
    (h : e ≠ email) : storeDelete email s e = s e := by
  simp [storeDelete, h]

example : validEmail "a@b.cd" = true := by decide
example : validEmail "a@bcd" = false := by decide
example : validEmail "" = false := by decide
example : validEmail "a@b." = false := by decide
example : validEmail "a@.b" = false := by decide
example : validEmail "a@b.c.d" = true := by decide
example : generateOTP 0 = "100000" := by decide
example :
    (verifyOtp "a@b.cd" "000000" 0 true
      (storeSet "a@b.cd" ⟨"123456", 1000, 0⟩ emptyStore)).1
      = VerifyResult.mismatch := by decide

/-! ## Claim theorems -/

/-- C5: for every identity whose stored challenge is past its expiry
(`now > expiresAt`), `VerifyChallenge` fails with `Expired` regardless of the
submitted code, removes that entry from the store, and (frame) leaves every
other identity's entry untouched. -/
theorem verify_expired_removes (email otp : String) (now : Nat) (io : Bool)
    (s : Store) (c : Challenge) (h1 : email ≠ "") (h2 : otp ≠ "")
    (h3 : s email = some c) (h4 : now > c.expiresAt) :
    (verifyOtp email otp now io s).1 = VerifyResult.expired ∧
    (verifyOtp email otp now io s).2 email = none ∧
    ∀ e, e ≠ email → (verifyOtp email otp now io s).2 e = s e := by
  rw [verifyOtp_expired email otp now io s c h1 h2 h3 h4]
  exact ⟨rfl, storeDelete_self email s, fun e he => storeDelete_other email e s he⟩

/-- Witness for C5: a concrete store whose entry expired at 1000 ms, verified
at 400000 ms with the (correct!) code, yields `Expired`. -/
theorem verify_expired_removes_witness :
    (verifyOtp "a@b.cd" "123456" 400000 true
        (storeSet "a@b.cd" ⟨"123456", 1000, 0⟩ emptyStore)).1
      = VerifyResult.expired :=
  (verify_expired_removes "a@b.cd" "123456" 400000 true
    (storeSet "a@b.cd" ⟨"123456", 1000, 0⟩ emptyStore) ⟨"123456", 1000, 0⟩
    (by decide) (by decide) (by decide) (by decide)).1

/-- C10: a challenge that is simultaneously expired (`now > expiresAt`) and
exhausted (`attemptCount ≥ 3`) is reported as `Expired`, not
`AttemptsExhausted` — the expiry check at src/index.js line 194 runs before
the attempts check at line 202 — and the entry is removed. -/
theorem verify_expired_before_exhausted (email otp : String) (now : Nat)
    (io : Bool) (s : Store) (c : Challenge) (h1 : email ≠ "") (h2 : otp ≠ "")
    (h3 : s email = some c) (h4 : now > c.expiresAt) (h5 : c.attempts ≥ 3) :
    (verifyOtp email otp now io s).1 = VerifyResult.expired ∧
    (verifyOtp email otp now io s).1 ≠ VerifyResult.attemptsExhausted ∧
    (verifyOtp email otp now io s).2 email = none := by
  rw [verifyOtp_expired email otp now io s c h1 h2 h3 h4]
  exact ⟨rfl, by simp, storeDelete_self email s⟩

/-- Witness for C10: entry expired at 1000 ms with 3 failed attempts,
verified at 400000 ms, yields `Expired`. -/
theorem verify_expired_before_exhausted_witness :
    (verifyOtp "a@b.cd" "000000" 400000 true
        (storeSet "a@b.cd" ⟨"123456", 1000, 3⟩ emptyStore)).1
      = VerifyResult.expired :=
  (verify_expired_before_exhausted "a@b.cd" "000000" 400000 true
    (storeSet "a@b.cd" ⟨"123456", 1000, 3⟩ emptyStore) ⟨"123456", 1000, 3⟩
    (by decide) (by decide) (by decide) (by decide) (by decide)).1

/-- C9: on a `Mismatch` failure the stored challenge keeps its code and its
expiry and only its attempt counter grows by exactly one, and entries of all
other identities are untouched. -/
theorem verify_mismatch_frame (email otp : String) (now : Nat) (io : Bool)
    (s : Store) (c : Challenge) (h1 : email ≠ "") (h2 : otp ≠ "")
    (h3 : s email = some c) (h4 : ¬ now > c.expiresAt) (h5 : c.attempts < 3)
    (h6 : c.otp ≠ otp) :
    (verifyOtp email otp now io s).1 = VerifyResult.mismatch ∧
    (verifyOtp email otp now io s).2 email =
      some { otp := c.otp, expiresAt := c.expiresAt, attempts := c.attempts + 1 } ∧
    ∀ e, e ≠ email → (verifyOtp email otp now io s).2 e = s e := by
  rw [verifyOtp_mismatch email otp now io s c h1 h2 h3 h4 h5 h6]
  exact ⟨rfl, storeSet_self email _ s, fun e he => storeSet_other email e _ s he⟩

/-- Witness for C9: one wrong attempt against a fresh live entry. -/
theorem verify_mismatch_frame_witness :
    (verifyOtp "a@b.cd" "000000" 0 true
        (storeSet "a@b.cd" ⟨"123456", 300000, 0⟩ emptyStore)).1
      = VerifyResult.mismatch :=
  (verify_mismatch_frame "a@b.cd" "000000" 0 true
    (storeSet "a@b.cd" ⟨"123456", 300000, 0⟩ emptyStore) ⟨"123456", 300000, 0⟩
    (by decide) (by decide) (by decide) (by decide) (by decide) (by decide)).1

/-- C2 counterexample: with a live entry whose code matches, a failing
issuer (`createCustomToken` throws) returns `IssuerFailure` while the entry
is STILL in the store — `otpStorage.delete` at src/index.js line 240 only
runs after the issuer calls succeed, so the matched code is NOT yet
consumed, contrary to the claim. -/
theorem verify_issuer_failure_retains_entry :
    (verifyOtp "a@b.cd" "123456" 0 false
        (storeSet "a@b.cd" ⟨"123456", 300000, 0⟩ emptyStore)).1
      = VerifyResult.issuerFailure ∧
    (verifyOtp "a@b.cd" "123456" 0 false
        (storeSet "a@b.cd" ⟨"123456", 300000, 0⟩ emptyStore)).2 "a@b.cd"
      = some ⟨"123456", 300000, 0⟩ :=
  ⟨by decide, by decide⟩

/-- C2 amended: on a correct match the challenge is removed only after the
identity-issuer call succeeds; when minting succeeds the entry is gone, but
when minting fails (`IssuerFailure`) the store is left exactly as it was, so
the matched code remains usable for a retry. -/
theorem verify_success_delete_after_issuer (email otp : String) (now : Nat)
    (s : Store) (c : Challenge) (h1 : email ≠ "") (h2 : otp ≠ "")
    (h3 : s email = some c) (h4 : ¬ now > c.expiresAt) (h5 : c.attempts < 3)
    (h6 : c.otp = otp) :
    (verifyOtp email otp now true s).1 = VerifyResult.success (localPart email) ∧
    (verifyOtp email otp now true s).2 email = none ∧
    (verifyOtp email otp now false s).1 = VerifyResult.issuerFailure ∧
    (verifyOtp email otp now false s).2 = s := by
  rw [verifyOtp_success email otp now s c h1 h2 h3 h4 h5 h6,
    verifyOtp_issuerFail email otp now s c h1 h2 h3 h4 h5 h6]
  exact ⟨rfl, storeDelete_self email s, rfl, rfl⟩

/-- Witness for the amended C2. -/
theorem verify_success_delete_after_issuer_witness :
    (verifyOtp "a@b.cd" "123456" 0 false
        (storeSet "a@b.cd" ⟨"123456", 300000, 1⟩ emptyStore)).2
      = storeSet "a@b.cd" ⟨"123456", 300000, 1⟩ emptyStore :=
  (verify_success_delete_after_issuer "a@b.cd" "123456" 0
    (storeSet "a@b.cd" ⟨"123456", 300000, 1⟩ emptyStore) ⟨"123456", 300000, 1⟩
    (by decide) (by decide) (by decide) (by decide) (by decide) (by decide)).2.2.2

/-- Unfolding of a successful `send-otp`. -/
theorem sendOtp_valid (email : String) (k now : Nat) (s : Store)
    (hv : validEmail email = true) :
    sendOtp email k now s =
      (SendResult.otpSent (generateOTP k) 300,
        storeSet email
          { otp := generateOTP k, expiresAt := now + 5 * 60 * 1000, attempts := 0 }
          s) := by
  unfold sendOtp
  rw [if_neg (by simp [hv])]

/-- C7: for a well-formed identity, `RequestChallenge` stores a challenge
whose code is the decimal string of a number in `[100000, 999999]`, with
`attemptCount = 0` and `expiresAt = now + 5` minutes, and reports success
with a 300-second expiry window. -/
theorem sendOtp_fresh_challenge (email : String) (k now : Nat) (s : Store)
    (hv : validEmail email = true) :
    (sendOtp email k now s).1 = SendResult.otpSent (generateOTP k) 300 ∧
    (sendOtp email k now s).2 email =
      some { otp := generateOTP k, expiresAt := now + 5 * 60 * 1000, attempts := 0 } ∧
    generateOTP k = Nat.repr (generateOTPNum k) ∧
    100000 ≤ generateOTPNum k ∧ generateOTPNum k ≤ 999999 := by
  rw [sendOtp_valid email k now s hv]
  refine ⟨rfl, storeSet_self email _ s, rfl, ?_, ?_⟩
  · unfold generateOTPNum; omega
  · unfold generateOTPNum
    have : k % 900000 < 900000 := Nat.mod_lt _ (by omega)
    omega

/-- Witness for C7. -/
theorem sendOtp_fresh_challenge_witness :
    (sendOtp "a@b.cd" 7 0 emptyStore).1 = SendResult.otpSent (generateOTP 7) 300 :=
  (sendOtp_fresh_challenge "a@b.cd" 7 0 emptyStore (by decide)).1

/-- Membership after one sweep run: an entry survives iff it was there and
its expiry has not passed. -/
theorem cleanupExpired_mem (now : Nat) (s : Store) (e : String) (c : Challenge) :
    cleanupExpired now s e = some c ↔ s e = some c ∧ ¬ now > c.expiresAt := by
  unfold cleanupExpired
  cases hse : s e with
  | none => simp
  | some d =>
    show (if now > d.expiresAt then none else some d) = some c
        ↔ some d = some c ∧ ¬ now > c.expiresAt
    by_cases hd : now > d.expiresAt
    · rw [if_pos hd]
      constructor
      · intro h; exact absurd h (by simp)
      · rintro ⟨hdc, hc⟩
        cases hdc
        exact absurd hd hc
    · rw [if_neg hd]
      constructor
      · intro h; cases h; exact ⟨rfl, hd⟩
      · rintro ⟨hdc, _⟩; exact hdc

/-- Sweeping twice at the same instant changes nothing further. -/
theorem cleanupExpired_idem (now : Nat) (s : Store) :
    cleanupExpired now (cleanupExpired now s) = cleanupExpired now s := by
  funext e
  simp only [cleanupExpired]
  cases s e with
  | none => rfl
  | some d =>
    show (match (if now > d.expiresAt then none else some d) with
          | some data => if now > data.expiresAt then none else some data
          | none => none)
        = (if now > d.expiresAt then none else some d)
    by_cases hd : now > d.expiresAt
    · rw [if_pos hd]
    · rw [if_neg hd]
      show (if now > d.expiresAt then none else some d) = some d
      rw [if_neg hd]

/-- C8: one sweep run at time `now` removes exactly the entries whose
`expiresAt` has passed — an entry survives iff it was stored and still
within its window (so live entries are bitwise untouched) — and running the
sweep again is a no-op, so the effect is independent of the run count. -/
theorem cleanupExpired_exact (now : Nat) (s : Store) (e : String) (c : Challenge) :
    (cleanupExpired now s e = some c ↔ s e = some c ∧ ¬ now > c.expiresAt) ∧
    cleanupExpired now (cleanupExpired now s) = cleanupExpired now s :=
  ⟨cleanupExpired_mem now s e c, cleanupExpired_idem now s⟩

/-- C4: after a successful `RequestChallenge`, verifying the issued code
within the window succeeds (minting a credential for the address's local
part) and removes the entry, and replaying the same code immediately fails
with `NotFoundOrExpired` — the code is single-use. -/
theorem request_then_verify_single_use (email : String) (k now now2 now3 : Nat)
    (io3 : Bool) (s : Store) (hv : validEmail email = true)
    (h2 : ¬ now2 > now + 5 * 60 * 1000) :
    (sendOtp email k now s).1 = SendResult.otpSent (generateOTP k) 300 ∧
    (verifyOtp email (generateOTP k) now2 true (sendOtp email k now s).2).1
      = VerifyResult.success (localPart email) ∧
    (verifyOtp email (generateOTP k) now2 true (sendOtp email k now s).2).2 email
      = none ∧
    (verifyOtp email (generateOTP k) now3 io3
        (verifyOtp email (generateOTP k) now2 true (sendOtp email k now s).2).2).1
      = VerifyResult.notFoundOrExpired := by
  have he := validEmail_ne_empty hv
  have hk := generateOTP_ne_empty k
  rw [sendOtp_valid email k now s hv]
  set c0 : Challenge :=
    { otp := generateOTP k, expiresAt := now + 5 * 60 * 1000, attempts := 0 } with hc0
  have hlook : storeSet email c0 s email = some c0 := storeSet_self email c0 s
  have hver := verifyOtp_success email (generateOTP k) now2 (storeSet email c0 s)
    c0 he hk hlook h2 (by simp [hc0]) rfl
  rw [hver]
  have hgone : storeDelete email (storeSet email c0 s) email = none :=
    storeDelete_self email _
  have hver2 := verifyOtp_notFound email (generateOTP k) now3 io3
    (storeDelete email (storeSet email c0 s)) he hk hgone
  rw [hver2]
  exact ⟨rfl, rfl, storeDelete_self email _, rfl⟩

/-- Witness for C4. -/
theorem request_then_verify_single_use_witness :
    (verifyOtp "a@b.cd" (generateOTP 7) 1 true
        (sendOtp "a@b.cd" 7 0 emptyStore).2).1
      = VerifyResult.success (localPart "a@b.cd") :=
  (request_then_verify_single_use "a@b.cd" 7 0 1 2 true emptyStore
    (by decide) (by omega)).2.1

/-- C6: a second `RequestChallenge` for the same identity before the first
challenge is consumed overwrites it — the keyed store holds exactly the new
challenge for that identity (`Map.set`, at most one entry per key) — so
verifying with the old code fails with `Mismatch` while verifying with the
new code afterwards succeeds.  (Hypothesis `hneq` excludes the measure-zero
collision in which the two random draws produce the same 6-digit code, in
which case the old code IS the new code and still verifies.) -/
theorem second_request_overwrites (email : String) (k1 k2 now1 now2 now3 now4 : Nat)
    (io : Bool) (s : Store) (hv : validEmail email = true)
    (hneq : generateOTP k2 ≠ generateOTP k1)
    (h3 : ¬ now3 > now2 + 5 * 60 * 1000)
    (h4 : ¬ now4 > now2 + 5 * 60 * 1000) :
    (sendOtp email k2 now2 (sendOtp email k1 now1 s).2).2 email
      = some { otp := generateOTP k2, expiresAt := now2 + 5 * 60 * 1000, attempts := 0 } ∧
    (verifyOtp email (generateOTP k1) now3 io
        (sendOtp email k2 now2 (sendOtp email k1 now1 s).2).2).1
      = VerifyResult.mismatch ∧
    (verifyOtp email (generateOTP k2) now4 true
        (verifyOtp email (generateOTP k1) now3 io
          (sendOtp email k2 now2 (sendOtp email k1 now1 s).2).2).2).1
      = VerifyResult.success (localPart email) := by
  have he := validEmail_ne_empty hv
  have hk1 := generateOTP_ne_empty k1
  have hk2 := generateOTP_ne_empty k2
  rw [sendOtp_valid email k2 now2 _ hv]
  set c2 : Challenge :=
    { otp := generateOTP k2, expiresAt := now2 + 5 * 60 * 1000, attempts := 0 } with hc2
  set s1 : Store := (sendOtp email k1 now1 s).2 with hs1
  have hlook : storeSet email c2 s1 email = some c2 := storeSet_self email c2 s1
  have hver1 := verifyOtp_mismatch email (generateOTP k1) now3 io
    (storeSet email c2 s1) c2 he hk1 hlook h3 (by simp [hc2]) hneq
  rw [hver1]
  set c2' : Challenge := { c2 with attempts := c2.attempts + 1 } with hc2'
  have hlook2 : storeSet email c2' (storeSet email c2 s1) email = some c2' :=
    storeSet_self email c2' _
  have hver2 := verifyOtp_success email (generateOTP k2) now4
    (storeSet email c2' (storeSet email c2 s1)) c2' he hk2 hlook2
    (by simp [hc2', hc2]; omega) (by simp [hc2', hc2]) rfl
  rw [hver2]
  exact ⟨hlook, rfl, rfl⟩

/-- C1 counterexample: with a fresh live challenge (code "123456",
attempts 0), the THIRD consecutive wrong-code call still returns `Mismatch`,
not `AttemptsExhausted` — the attempts check `storedData.attempts >= 3`
(src/index.js line 202) runs before the increment, so attempts go 0→1→2→3
across three mismatch responses. -/
theorem third_wrong_attempt_is_mismatch :
    (verifyOtp "a@b.cd" "000000" 0 true
        ((verifyOtp "a@b.cd" "000000" 0 true
          ((verifyOtp "a@b.cd" "000000" 0 true
            (storeSet "a@b.cd" ⟨"123456", 300000, 0⟩ emptyStore)).2)).2)).1
      = VerifyResult.mismatch ∧
    (verifyOtp "a@b.cd" "000000" 0 true
        ((verifyOtp "a@b.cd" "000000" 0 true
          ((verifyOtp "a@b.cd" "000000" 0 true
            (storeSet "a@b.cd" ⟨"123456", 300000, 0⟩ emptyStore)).2)).2)).1
      ≠ VerifyResult.attemptsExhausted :=
  ⟨by decide, by decide⟩

/-- C1 amended: starting from a fresh live challenge (attemptCount 0),
three consecutive wrong-code calls return `Mismatch, Mismatch, Mismatch`;
the FOURTH call — even with the correct code — returns `AttemptsExhausted`
and removes the entry, and a FIFTH call returns `NotFoundOrExpired`. -/
theorem three_mismatches_then_exhausted (email wrong : String) (now : Nat)
    (io : Bool) (s : Store) (c : Challenge)
    (h1 : email ≠ "") (h2 : wrong ≠ "") (h2c : c.otp ≠ "")
    (h3 : s email = some c) (h4 : c.attempts = 0)
    (h5 : ¬ now > c.expiresAt) (h6 : c.otp ≠ wrong) :
    (verifyOtp email wrong now io s).1 = VerifyResult.mismatch ∧
    (verifyOtp email wrong now io
        (verifyOtp email wrong now io s).2).1 = VerifyResult.mismatch ∧
    (verifyOtp email wrong now io
        (verifyOtp email wrong now io
          (verifyOtp email wrong now io s).2).2).1 = VerifyResult.mismatch ∧
    (verifyOtp email c.otp now io
        (verifyOtp email wrong now io
          (verifyOtp email wrong now io
            (verifyOtp email wrong now io s).2).2).2).1
      = VerifyResult.attemptsExhausted ∧
    (verifyOtp email c.otp now io
        (verifyOtp email wrong now io
          (verifyOtp email wrong now io
            (verifyOtp email wrong now io s).2).2).2).2 email = none ∧
    (verifyOtp email c.otp now io
        (verifyOtp email c.otp now io
          (verifyOtp email wrong now io
            (verifyOtp email wrong now io
              (verifyOtp email wrong now io s).2).2).2).2).1
      = VerifyResult.notFoundOrExpired := by
  obtain ⟨cotp, cexp, catt⟩ := c
  have h4' : catt = 0 := h4
  subst h4'
  have h5' : ¬ now > cexp := h5
  have h6' : cotp ≠ wrong := h6
  have h2c' : cotp ≠ "" := h2c
  have e1 : verifyOtp email wrong now io s =
      (VerifyResult.mismatch, storeSet email ⟨cotp, cexp, 1⟩ s) :=
    verifyOtp_mismatch email wrong now io s ⟨cotp, cexp, 0⟩
      h1 h2 h3 h5' (by omega) h6'
  have l1 : storeSet email ⟨cotp, cexp, 1⟩ s email = some ⟨cotp, cexp, 1⟩ :=
    storeSet_self email _ s
  have e2 : verifyOtp email wrong now io (storeSet email ⟨cotp, cexp, 1⟩ s) =
      (VerifyResult.mismatch,
        storeSet email ⟨cotp, cexp, 2⟩ (storeSet email ⟨cotp, cexp, 1⟩ s)) :=
    verifyOtp_mismatch email wrong now io _ ⟨cotp, cexp, 1⟩
      h1 h2 l1 h5' (by omega : (1:Nat) < 3) h6'
  have l2 : storeSet email ⟨cotp, cexp, 2⟩ (storeSet email ⟨cotp, cexp, 1⟩ s) email
      = some ⟨cotp, cexp, 2⟩ := storeSet_self email _ _
  have e3 : verifyOtp email wrong now io
        (storeSet email ⟨cotp, cexp, 2⟩ (storeSet email ⟨cotp, cexp, 1⟩ s)) =
      (VerifyResult.mismatch,
        storeSet email ⟨cotp, cexp, 3⟩
          (storeSet email ⟨cotp, cexp, 2⟩ (storeSet email ⟨cotp, cexp, 1⟩ s))) :=
    verifyOtp_mismatch email wrong now io _ ⟨cotp, cexp, 2⟩
      h1 h2 l2 h5' (by omega : (2:Nat) < 3) h6'
  have l3 : storeSet email ⟨cotp, cexp, 3⟩
        (storeSet email ⟨cotp, cexp, 2⟩ (storeSet email ⟨cotp, cexp, 1⟩ s)) email
      = some ⟨cotp, cexp, 3⟩ := storeSet_self email _ _
  have e4 : verifyOtp email cotp now io
        (storeSet email ⟨cotp, cexp, 3⟩
          (storeSet email ⟨cotp, cexp, 2⟩ (storeSet email ⟨cotp, cexp, 1⟩ s))) =
      (VerifyResult.attemptsExhausted,
        storeDelete email
          (storeSet email ⟨cotp, cexp, 3⟩
            (storeSet email ⟨cotp, cexp, 2⟩ (storeSet email ⟨cotp, cexp, 1⟩ s)))) :=
    verifyOtp_exhausted email cotp now io _ ⟨cotp, cexp, 3⟩
      h1 h2c' l3 h5' (by omega : (3:Nat) ≥ 3)
  have e5 : verifyOtp email cotp now io
        (storeDelete email
          (storeSet email ⟨cotp, cexp, 3⟩
            (storeSet email ⟨cotp, cexp, 2⟩ (storeSet email ⟨cotp, cexp, 1⟩ s)))) =
      (VerifyResult.notFoundOrExpired,
        storeDelete email
          (storeSet email ⟨cotp, cexp, 3⟩
            (storeSet email ⟨cotp, cexp, 2⟩ (storeSet email ⟨cotp, cexp, 1⟩ s)))) :=
    verifyOtp_notFound email cotp now io _ h1 h2c' (storeDelete_self email _)
  simp only [e1, e2, e3, e4, e5, storeDelete_self]
  exact ⟨trivial, trivial, trivial, trivial, trivial, trivial⟩

/-- Witness for the amended C1. -/
theorem three_mismatches_then_exhausted_witness :
    (verifyOtp "a@b.cd" "123456" 0 true
        (verifyOtp "a@b.cd" "000000" 0 true
          (verifyOtp "a@b.cd" "000000" 0 true
            (verifyOtp "a@b.cd" "000000" 0 true
              (storeSet "a@b.cd" ⟨"123456", 300000, 0⟩ emptyStore)).2).2).2).1
      = VerifyResult.attemptsExhausted :=
  (three_mismatches_then_exhausted "a@b.cd" "000000" 0 true
    (storeSet "a@b.cd" ⟨"123456", 300000, 0⟩ emptyStore) ⟨"123456", 300000, 0⟩
    (by decide) (by decide) (by decide) (by decide) (by decide) (by decide)
    (by decide)).2.2.2.1

/-- Store effect of `send-otp`: either rejected (store unchanged) or a fresh
challenge is written for the given identity. -/
theorem sendOtp_store_cases (email : String) (k now : Nat) (s : Store) :
    (sendOtp email k now s).2 = s ∨
    (sendOtp email k now s).2 =
      storeSet email
        { otp := generateOTP k, expiresAt := now + 5 * 60 * 1000, attempts := 0 }
        s := by
  unfold sendOtp
  split
  · exact Or.inl rfl
  · exact Or.inr rfl

/-- Store effect of `verify-otp`: the store is unchanged, or the identity's
entry is deleted, or (mismatch, reached only when `attempts < 3`) the entry's
attempt counter is bumped by one. -/
theorem verifyOtp_store_cases (email otp : String) (now : Nat) (io : Bool)
    (s : Store) :
    (verifyOtp email otp now io s).2 = s ∨
    (verifyOtp email otp now io s).2 = storeDelete email s ∨
    ∃ c, s email = some c ∧ c.attempts < 3 ∧
      (verifyOtp email otp now io s).2
        = storeSet email { c with attempts := c.attempts + 1 } s := by
  unfold verifyOtp
  split
  · exact Or.inl rfl
  · split
    · exact Or.inl rfl
    · rename_i storedData hsd
      split
      · exact Or.inr (Or.inl rfl)
      · split
        · exact Or.inr (Or.inl rfl)
        · rename_i hnexp hnatt
          split
          · exact Or.inr (Or.inr ⟨storedData, hsd, by omega, rfl⟩)
          · split
            · exact Or.inr (Or.inl rfl)
            · exact Or.inl rfl

/-- C3 amended: in every store state reachable by any sequence of
`RequestChallenge`, `VerifyChallenge` and sweep operations, every stored
challenge satisfies `attemptCount ≤ 3`.  (The stronger liveness half of the
claim is false: see the counterexample below — an exhausted entry with
`attemptCount = 3` is retained until a later call or sweep removes it.) -/
theorem reachable_attempts_le (s : Store) (hs : Reachable s) :
    ∀ e c, s e = some c → c.attempts ≤ 3 := by
  induction hs with
  | empty =>
    intro e c h
    exact absurd h (by simp [emptyStore])
  | send email k now hr ih =>
    intro e c h
    rcases sendOtp_store_cases email k now _ with hcase | hcase
    · rw [hcase] at h; exact ih e c h
    · rw [hcase] at h
      simp only [storeSet] at h
      by_cases he : e = email
      · rw [if_pos he] at h
        injection h with h
        subst h
        exact Nat.zero_le 3
      · rw [if_neg he] at h; exact ih e c h
  | verify email otp now io hr ih =>
    intro e c h
    rcases verifyOtp_store_cases email otp now io _ with hcase | hcase | ⟨d, _, hdlt, hcase⟩
    · rw [hcase] at h; exact ih e c h
    · rw [hcase] at h
      simp only [storeDelete] at h
      by_cases he : e = email
      · rw [if_pos he] at h
        exact absurd h (by simp)
      · rw [if_neg he] at h; exact ih e c h
    · rw [hcase] at h
      simp only [storeSet] at h
      by_cases he : e = email
      · rw [if_pos he] at h
        injection h with h
        subst h
        show d.attempts + 1 ≤ 3
        omega
      · rw [if_neg he] at h; exact ih e c h
  | cleanup now hr ih =>
    intro e c h
    exact ih e c ((cleanupExpired_mem now _ e c).mp h).1

/-- Witness for the amended C3: the store after one `send-otp` is reachable
and its single entry has `attemptCount = 0 ≤ 3`. -/
theorem reachable_attempts_le_witness :
    (⟨"100000", 300000, 0⟩ : Challenge).attempts ≤ 3 :=
  reachable_attempts_le (sendOtp "a@b.cd" 0 0 emptyStore).2
    (Reachable.send "a@b.cd" 0 0 Reachable.empty)
    "a@b.cd" ⟨"100000", 300000, 0⟩ (by decide)

/-- C3 counterexample: a reachable store (one issuance followed by three
wrong-code verifications) retains an entry with `attemptCount = 3` — an
exhausted, no-longer-live challenge that is still present, refuting the
"every stored challenge is live / no used-but-retained entry" half of the
invariant. -/
theorem reachable_exhausted_entry_retained :
    ∃ s, Reachable s ∧ ∃ c : Challenge, s "a@b.cd" = some c ∧ ¬ c.attempts < 3 := by
  refine ⟨(verifyOtp "a@b.cd" "000000" 0 true
      ((verifyOtp "a@b.cd" "000000" 0 true
        ((verifyOtp "a@b.cd" "000000" 0 true
          ((sendOtp "a@b.cd" 0 0 emptyStore).2)).2)).2)).2,
    ?_, ⟨"100000", 300000, 3⟩, ?_, ?_⟩
  · exact Reachable.verify "a@b.cd" "000000" 0 true
      (Reachable.verify "a@b.cd" "000000" 0 true
        (Reachable.verify "a@b.cd" "000000" 0 true
          (Reachable.send "a@b.cd" 0 0 Reachable.empty)))
  · decide
  · decide

/-- Witness for C6. -/
theorem second_request_overwrites_witness :
    (verifyOtp "a@b.cd" (generateOTP 0) 2 true
        (sendOtp "a@b.cd" 1 1 (sendOtp "a@b.cd" 0 0 emptyStore).2).2).1
      = VerifyResult.mismatch :=
  (second_request_overwrites "a@b.cd" 0 1 0 1 2 3 true emptyStore
    (by decide) (by decide) (by omega) (by omega)).2.1
